import Mathlib

/-!
Verification of the nutrition mini-app aggregation core
(`mini_app_server.py`, `web_server.py`, `supabase_db.py`).

Numeric values (calories, grams) are modelled as rationals `ℚ`: every
computation in the source is a sum, difference, `max`/`min`, or a single
division, all of which are exact on the decimal values the store returns.
Python dictionaries passed by callers are modelled as association lists
`List (String × ℚ)` (so that dict truthiness — empty vs non-empty — is
representable); database rows are modelled as records whose fields are
`Option ℚ` (`none` = SQL NULL; the columns are always present in a row
because the queries select them explicitly).

Python's `/` raises `ZeroDivisionError` on a zero divisor; it is modelled
by `pyDiv` returning `Except Unit ℚ`, where `Except.error ()` stands for
the raised exception.
-/

namespace MiniApp

/-- Python dict lookup `d.get(k, default)` on an association list. -/
def dget (d : List (String × ℚ)) (k : String) (default : ℚ) : ℚ :=
  (d.lookup k).getD default

/-- Python `/` on floats: raises `ZeroDivisionError` when the divisor is 0,
modelled as `Except.error ()`. -/
def pyDiv (a b : ℚ) : Except Unit ℚ :=
  if b = 0 then .error () else .ok (a / b)

/-- The four macro values appearing throughout the app
(calories, protein, fats, carbs). -/
structure Macros where
  calories : ℚ
  protein : ℚ
  fats : ℚ
  carbs : ℚ
deriving Repr, DecidableEq

/-- The per-user entry stored in `USER_DATA` by `update_user_nutrition_data`
(`mini_app_server.py` lines 40–75; `web_server.py` has the same function). -/
structure UserEntry where
  targets : Macros
  consumed_today : Macros
  remaining : Macros
  progress : Macros
  meal_count : ℕ
deriving Repr, DecidableEq

/-- Embedding of `update_user_nutrition_data(user_id, targets, consumed_today, meal_count)`
from `mini_app_server.py` lines 40–75 (identical in `web_server.py`
lines 37–86).  `targets` and `consumed_today` are Python dicts (possibly
empty, which is falsy); `remaining` and `progress` are computed only when
both dicts are truthy.  The `progress` computation divides by
`targets.get(k, default)` with no guard, so a present-but-zero target
raises `ZeroDivisionError`, modelled as `Except.error ()`. -/
def update_user_nutrition_data (targets consumed_today : List (String × ℚ))
    (meal_count : ℕ) : Except Unit UserEntry :=
  if targets ≠ [] ∧ consumed_today ≠ [] then do
    let remaining : Macros :=
      { calories := max 0 (dget targets "calories" 2000 - dget consumed_today "calories" 0)
        protein := max 0 (dget targets "protein_g" 150 - dget consumed_today "protein_g" 0)
        fats := max 0 (dget targets "fats_g" 65 - dget consumed_today "fats_g" 0)
        carbs := max 0 (dget targets "carbs_g" 250 - dget consumed_today "carbs_g" 0) }
    let pcal ← pyDiv (dget consumed_today "calories" 0) (dget targets "calories" 2000)
    let pprot ← pyDiv (dget consumed_today "protein_g" 0) (dget targets "protein_g" 150)
    let pfat ← pyDiv (dget consumed_today "fats_g" 0) (dget targets "fats_g" 65)
    let pcarb ← pyDiv (dget consumed_today "carbs_g" 0) (dget targets "carbs_g" 250)
    let progress : Macros :=
      { calories := min 1 pcal, protein := min 1 pprot
        fats := min 1 pfat, carbs := min 1 pcarb }
    pure
      { targets :=
          { calories := dget targets "calories" 2000
            protein := dget targets "protein_g" 150
            fats := dget targets "fats_g" 65
            carbs := dget targets "carbs_g" 250 }
        consumed_today :=
          { calories := dget consumed_today "calories" 0
            protein := dget consumed_today "protein_g" 0
            fats := dget consumed_today "fats_g" 0
            carbs := dget consumed_today "carbs_g" 0 }
        remaining := remaining
        progress := progress
        meal_count := meal_count }
  else
    -- one of the dicts is falsy: remaining/progress stay empty and the
    -- stored entry falls back to the `or` defaults
    pure
      { targets :=
          if targets ≠ [] then
            { calories := dget targets "calories" 2000
              protein := dget targets "protein_g" 150
              fats := dget targets "fats_g" 65
              carbs := dget targets "carbs_g" 250 }
          else ⟨2000, 150, 65, 250⟩
        consumed_today :=
          if consumed_today ≠ [] then
            { calories := dget consumed_today "calories" 0
              protein := dget consumed_today "protein_g" 0
              fats := dget consumed_today "fats_g" 0
              carbs := dget consumed_today "carbs_g" 0 }
          else ⟨0, 0, 0, 0⟩
        remaining := ⟨2000, 150, 65, 250⟩
        progress := ⟨0, 0, 0, 0⟩
        meal_count := meal_count }

/-- A row of the `users` table as selected by
`select('calorie_target, protein_target_g, fat_target_g, carbs_target_g')`
(`supabase_db.py` lines 21 and 37).  Each selected column is present but
may be SQL NULL (`none`). -/
structure UserRow where
  calorie_target : Option ℚ
  protein_target_g : Option ℚ
  fat_target_g : Option ℚ
  carbs_target_g : Option ℚ
deriving Repr, DecidableEq

/-- Aggregated consumption totals as returned by
`get_nutrition_summary_for_date` (`supabase_db.py` lines 77–82, 101–106). -/
structure Consumed where
  total_calories : ℚ
  total_protein_g : ℚ
  total_carbs_g : ℚ
  total_fat_g : ℚ
deriving Repr, DecidableEq

/-- The progress block of `api_nutrition_data` in `web_server.py`
lines 262–267: `min(1.0, consumed / target)` per macro with the
unguarded Python division (a zero target raises `ZeroDivisionError`,
modelled as `Except.error ()`).  The `.get` defaults 2500/200/80/300
apply only to absent keys; the selected columns are always present, so
they are taken from the row (`none`, i.e. NULL, would raise in
`float(...)` before the division — also an error). -/
def webProgressBlock (targets : UserRow) (consumed : Consumed) :
    Except Unit Macros := do
  let tcal ← match targets.calorie_target with
    | some v => Except.ok v | none => Except.error ()
  let tprot ← match targets.protein_target_g with
    | some v => Except.ok v | none => Except.error ()
  let tfat ← match targets.fat_target_g with
    | some v => Except.ok v | none => Except.error ()
  let tcarb ← match targets.carbs_target_g with
    | some v => Except.ok v | none => Except.error ()
  let pcal ← pyDiv consumed.total_calories tcal
  let pprot ← pyDiv consumed.total_protein_g tprot
  let pfat ← pyDiv consumed.total_fat_g tfat
  let pcarb ← pyDiv consumed.total_carbs_g tcarb
  pure { calories := min 1 pcal, protein := min 1 pprot
         fats := min 1 pfat, carbs := min 1 pcarb }

/-- Model of `float(row.get(col, 0) or 0)`: the column is selected so it is present,
but its value may be SQL NULL; `or 0` maps NULL (and 0, an identity) to 0. -/
def orZero (o : Option ℚ) : ℚ := o.getD 0

/-- A row of `daily_nutrition_summary` as selected by
`get_nutrition_summary_for_date` (`supabase_db.py` lines 69–71). -/
structure SummaryRow where
  user_telegram_id : Int
  date : Int
  total_calories : Option ℚ
  total_protein_g : Option ℚ
  total_carbs_g : Option ℚ
  total_fat_g : Option ℚ
  meals_logged_count : Option ℚ
deriving Repr, DecidableEq

/-- A row of `nutrition_logs` as selected by the fallback query
(`supabase_db.py` lines 86–92).  `logged_at` is a timestamp measured in
days since the epoch, so the calendar date `d` covers `[d, d+1)`. -/
structure LogRow where
  user_telegram_id : Int
  logged_at : ℚ
  total_calories : Option ℚ
  protein_g : Option ℚ
  carbs_g : Option ℚ
  fat_g : Option ℚ
deriving Repr, DecidableEq

/-- The consumption store: table contents plus a failure flag per query
(a raised store exception is `Except.error ()`). -/
structure Db where
  daily_nutrition_summary : List SummaryRow
  nutrition_logs : List LogRow
  summaryQueryFails : Bool
  logsQueryFails : Bool

/-- The summary query
`table('daily_nutrition_summary').select(...).eq('user_telegram_id', u).eq('date', d).execute()`. -/
def querySummary (db : Db) (user : Int) (date : Int) :
    Except Unit (List SummaryRow) :=
  if db.summaryQueryFails then .error () else
    .ok (db.daily_nutrition_summary.filter
      (fun r => r.user_telegram_id == user && r.date == date))

/-- The raw-log range query
`table('nutrition_logs').select(...).eq('user_telegram_id', u).gte('logged_at', lo).lt('logged_at', hi).execute()`. -/
def queryLogsRange (db : Db) (user : Int) (lo hi : ℚ) :
    Except Unit (List LogRow) :=
  if db.logsQueryFails then .error () else
    .ok (db.nutrition_logs.filter
      (fun r => r.user_telegram_id == user
        && decide (lo ≤ r.logged_at) && decide (r.logged_at < hi)))

/-- Embedding of `SupabaseMiniApp.get_nutrition_summary_for_date` (`supabase_db.py`
lines 63–115): first try the pre-aggregated daily summary row; if the
query returns no row, fall back to summing the raw log entries whose
`logged_at` lies in `[date, date+1)`; on any error in either path return
all zeros (the whole body is wrapped in `try/except`, so the function
never raises — its Lean type is total accordingly). -/
def get_nutrition_summary_for_date (db : Db) (user : Int) (target_date : Int) :
    Consumed :=
  match querySummary db user target_date with
  | .error _ => ⟨0, 0, 0, 0⟩
  | .ok rows =>
    match rows with
    | r :: _ =>
      ⟨orZero r.total_calories, orZero r.total_protein_g,
       orZero r.total_carbs_g, orZero r.total_fat_g⟩
    | [] =>
      match queryLogsRange db user (target_date : ℚ) ((target_date : ℚ) + 1) with
      | .error _ => ⟨0, 0, 0, 0⟩
      | .ok logs =>
        ⟨(logs.map (fun l => orZero l.total_calories)).sum,
         (logs.map (fun l => orZero l.protein_g)).sum,
         (logs.map (fun l => orZero l.carbs_g)).sum,
         (logs.map (fun l => orZero l.fat_g)).sum⟩

/-- The `users` table: rows keyed by `user_id`, plus a failure flag. -/
structure UsersTable where
  rows : List (Int × UserRow)
  fails : Bool

/-- The profile query
`table('users').select('calorie_target, protein_target_g, fat_target_g, carbs_target_g').eq('user_id', uid).execute()`. -/
def queryUsers (t : UsersTable) (uid : Int) : Except Unit (List UserRow) :=
  if t.fails then .error () else
    .ok ((t.rows.filter (fun r => r.1 == uid)).map Prod.snd)

/-- The hard-coded default target set of
`SupabaseMiniApp.get_user_nutrition_targets` (`supabase_db.py`
lines 43–48 and 52–57). -/
def defaultTargetsRow : UserRow :=
  ⟨some 2000, some 150, some 65, some 250⟩

/-- Embedding of `SupabaseMiniApp.get_user_nutrition_targets` (`supabase_db.py`
lines 34–57): one store lookup; the first returned row, or the
hard-coded defaults when the result is empty or the lookup raises.
The second component counts the store lookups the call performs
(the body contains exactly one `.execute()`, on every path). -/
def get_user_nutrition_targets (t : UsersTable) (uid : Int) : UserRow × ℕ :=
  match queryUsers t uid with
  | .error _ => (defaultTargetsRow, 1)
  | .ok [] => (defaultTargetsRow, 1)
  | .ok (r :: _) => (r, 1)

/-- Embedding of `SupabaseMiniApp.get_user_profile` (`supabase_db.py` lines 17–32):
the first returned row, or `None` when the result is empty or the
lookup raises. -/
def get_user_profile (t : UsersTable) (uid : Int) : Option UserRow :=
  match queryUsers t uid with
  | .error _ => none
  | .ok [] => none
  | .ok (r :: _) => some r

/-- One macro of the remaining/total view. -/
structure ViewEntry where
  value : ℚ
  total : ℚ
deriving Repr, DecidableEq

/-- The remaining/total view returned by
`SupabaseMiniApp.get_user_nutrition_data` and by
`NutritionDataHandler.get_user_nutrition_data`. -/
structure NutritionView where
  calories : ViewEntry
  protein : ViewEntry
  carbs : ViewEntry
  fats : ViewEntry
deriving Repr, DecidableEq

/-- Embedding of `SupabaseMiniApp.get_user_nutrition_data` (`supabase_db.py`
lines 117–155): fetch targets and today's consumption, then per macro
`value = max(0, target − consumed)`, `total = target`.  The selected
target columns are present in the row but may be NULL; `None − float`
raises `TypeError`, which the surrounding `try/except` turns into the
hard-coded default view (lines 150–155). -/
def get_user_nutrition_data (t : UsersTable) (db : Db) (uid : Int)
    (today : Int) : NutritionView :=
  let targets := (get_user_nutrition_targets t uid).1
  let consumed := get_nutrition_summary_for_date db uid today
  match targets.calorie_target, targets.protein_target_g,
      targets.carbs_target_g, targets.fat_target_g with
  | some tc, some tp, some tcb, some tf =>
    { calories := ⟨max 0 (tc - consumed.total_calories), tc⟩
      protein := ⟨max 0 (tp - consumed.total_protein_g), tp⟩
      carbs := ⟨max 0 (tcb - consumed.total_carbs_g), tcb⟩
      fats := ⟨max 0 (tf - consumed.total_fat_g), tf⟩ }
  | _, _, _, _ =>
    { calories := ⟨1500, 2000⟩, protein := ⟨100, 150⟩
      carbs := ⟨200, 250⟩, fats := ⟨50, 65⟩ }

/-- Embedding of `NutritionDataHandler.get_user_nutrition_data` (`mini_app_server.py`
lines 83–140): raises (`Except.error ()`) when the profile row is
missing, when a target column is NULL (`float(None)` raises), or when
any target is 0 (`if not all([...])`); otherwise per macro
`remaining = max(0, target − consumed)` with `total = target`. -/
def handler_get_user_nutrition_data (t : UsersTable) (db : Db) (uid : Int)
    (today : Int) : Except Unit NutritionView :=
  match get_user_profile t uid with
  | none => .error ()
  | some p =>
    match p.calorie_target, p.protein_target_g,
        p.carbs_target_g, p.fat_target_g with
    | some tc, some tp, some tcb, some tf =>
      if tc ≠ 0 ∧ tp ≠ 0 ∧ tcb ≠ 0 ∧ tf ≠ 0 then
        let consumed := get_nutrition_summary_for_date db uid today
        .ok { calories := ⟨max 0 (tc - consumed.total_calories), tc⟩
              protein := ⟨max 0 (tp - consumed.total_protein_g), tp⟩
              carbs := ⟨max 0 (tcb - consumed.total_carbs_g), tcb⟩
              fats := ⟨max 0 (tf - consumed.total_fat_g), tf⟩ }
      else .error ()
    | _, _, _, _ => .error ()

/-- The four macro fields of the JSON API response blocks. -/
structure ApiMacros where
  calories : ℚ
  protein_g : ℚ
  carbs_g : ℚ
  fats_g : ℚ
deriving Repr, DecidableEq

/-- The JSON body built by `RequestHandler.handle_api_nutrition_data`
(`mini_app_server.py` lines 444–464). -/
structure ApiNutritionResponse where
  targets : ApiMacros
  consumed_today : ApiMacros
  remaining : ApiMacros
deriving Repr, DecidableEq

/-- The response assembly of `RequestHandler.handle_api_nutrition_data`
(`mini_app_server.py` lines 437–464): `consumed = total − value` per macro
("opposite of remaining"), `remaining = value`, `targets = total`. -/
def handle_api_nutrition_data (rd : NutritionView) : ApiNutritionResponse :=
  { targets :=
      ⟨rd.calories.total, rd.protein.total, rd.carbs.total, rd.fats.total⟩
    consumed_today :=
      ⟨rd.calories.total - rd.calories.value,
       rd.protein.total - rd.protein.value,
       rd.carbs.total - rd.carbs.value,
       rd.fats.total - rd.fats.value⟩
    remaining :=
      ⟨rd.calories.value, rd.protein.value, rd.carbs.value, rd.fats.value⟩ }

/-- Modelled from the spec: `handle_api_nutrition_data` fetches its
`real_data` through `self.get_real_user_nutrition_data`, a method that is
not defined under `src/`; per §4.1–§4.3 (and the remaining/total view shape
the handler consumes) it returns the remaining/total view computed by
`SupabaseMiniApp.get_user_nutrition_data`. -/
def get_real_user_nutrition_data (t : UsersTable) (db : Db) (uid : Int)
    (today : Int) : NutritionView :=
  get_user_nutrition_data t db uid today

/-- The full success path of the `/api/nutrition-data` endpoint. -/
def api_nutrition_response (t : UsersTable) (db : Db) (uid : Int)
    (today : Int) : ApiNutritionResponse :=
  handle_api_nutrition_data (get_real_user_nutrition_data t db uid today)

/-- Modelled from the spec: a pre-aggregated daily summary row as
delivered by `get_recent_daily_summaries`, a store method that is called
by `get_historical_nutrition_data` (`mini_app_server.py` line 170) but is
not defined under `src/`.  Per §4.4 step 2 it fetches, in one call, the
pre-aggregated summaries covering the window, keyed by calendar date with
the four consumed totals (plus a meal count used only for logging). -/
structure DaySummary where
  date : Int
  total_calories : ℚ
  total_protein_g : ℚ
  total_carbs_g : ℚ
  total_fat_g : ℚ
  meals_logged_count : ℕ
deriving Repr, DecidableEq

/-- The dict comprehension
`summary_lookup = {summary['date']: summary for summary in recent_summaries}`
(`mini_app_server.py` line 180): keyed by date, a later duplicate
overwrites an earlier one, hence the search over the reversed list. -/
def summaryLookup (l : List DaySummary) (d : Int) : Option DaySummary :=
  l.reverse.find? (fun s => s.date == d)

/-- One element of the `historical_data` list built by
`get_historical_nutrition_data` (`mini_app_server.py` lines 209–215). -/
structure HistDay where
  date : Int
  calories : ℚ
  protein : ℚ
  carbs : ℚ
  fats : ℚ
deriving Repr, DecidableEq

/-- The body of the `for i in range(days)` loop of
`get_historical_nutrition_data` (`mini_app_server.py` lines 186–215) for
the calendar date `d`: the looked-up summary's four totals when `d` is in
the lookup, an all-zero record when it is not. -/
def histDayFor (summaries : List DaySummary) (d : Int) : HistDay :=
  match summaryLookup summaries d with
  | some s =>
    ⟨d, s.total_calories, s.total_protein_g, s.total_carbs_g, s.total_fat_g⟩
  | none => ⟨d, 0, 0, 0, 0⟩

/-- The value returned by `get_historical_nutrition_data`
(`mini_app_server.py` lines 224–232). -/
structure HistResult where
  daily_targets : Macros
  historical_data : List HistDay
deriving Repr, DecidableEq

/-- Embedding of `get_historical_nutrition_data(user_id, days)` (`mini_app_server.py`
lines 145–236).  Inputs: the profile row (result of `get_user_profile`),
the batch of recent summaries (`Except.error ()` when that store call
raises), and today's UTC calendar date as a day number.  Raises
(`Except.error ()`, re-raised by lines 234–236) when the profile is
missing, a target column is NULL (`float(None)` raises), or the summary
fetch fails.  Otherwise builds, for `i = 0..days−1`, the record for
calendar date `today − (days − 1 − i)`: the looked-up summary's four
totals when the date is in the lookup, all zeros when it is not. -/
def get_historical_nutrition_data (profile : Option UserRow)
    (recent : Except Unit (List DaySummary)) (today : Int) (days : ℕ) :
    Except Unit HistResult :=
  match profile with
  | none => .error ()
  | some p =>
    match p.calorie_target, p.protein_target_g,
        p.carbs_target_g, p.fat_target_g with
    | some tc, some tp, some tcb, some tf =>
      match recent with
      | .error _ => .error ()
      | .ok summaries =>
        .ok { daily_targets := { calories := tc, protein := tp, fats := tf, carbs := tcb }
              historical_data := (List.range days).map (fun (i : ℕ) =>
                histDayFor summaries (today - ((days : Int) - 1 - (i : Int)))) }
    | _, _, _, _ => .error ()

/-- One element of the `last_7_days` list in the `/api/historical-data`
response (`mini_app_server.py` lines 507–515 and 544–551). -/
structure ApiHistDay where
  date : Int
  calories : ℚ
  protein : ℚ
  carbs : ℚ
  fats : ℚ
  caloriesSpent : ℚ
deriving Repr, DecidableEq

/-- The JSON body built by `RequestHandler.handle_api_historical_data`. -/
structure ApiHistResponse where
  days : ℕ
  daily_targets : Macros
  last_7_days : List ApiHistDay
deriving Repr, DecidableEq

/-- Embedding of `RequestHandler.handle_api_historical_data` (`mini_app_server.py`
lines 480–552): on success, reformat the historical series with
`caloriesSpent = 0`; when `get_historical_nutrition_data` raises, the
`except` branch (lines 531–552) answers with the fixed fallback targets
{2500, 200, 300, 80} and a `days`-length zero-filled series over the same
date window, instead of an error. -/
def handle_api_historical_data (profile : Option UserRow)
    (recent : Except Unit (List DaySummary)) (today : Int) (days : ℕ) :
    ApiHistResponse :=
  match get_historical_nutrition_data profile recent today days with
  | .ok h =>
    { days := days
      daily_targets := h.daily_targets
      last_7_days := h.historical_data.map (fun d =>
        ⟨d.date, d.calories, d.protein, d.carbs, d.fats, 0⟩) }
  | .error _ =>
    { days := days
      daily_targets := { calories := 2500, protein := 200, fats := 80, carbs := 300 }
      last_7_days := (List.range days).map (fun (i : ℕ) =>
        ⟨today - ((days : Int) - 1 - (i : Int)), 0, 0, 0, 0, 0⟩) }

/-- A nonempty all-decimal-digit character list read as a number,
`none` otherwise. -/
def parseDigits (cs : List Char) : Option ℕ :=
  if cs.isEmpty then none
  else
    cs.foldl (fun acc c =>
      match acc with
      | some n => if c.isDigit then some (10 * n + (c.toNat - 48)) else none
      | none => none) (some 0)

/-- Models Python `int(s)` on the identifier strings at this boundary:
an optional sign followed by one or more decimal digits parses to the
integer, anything else raises `ValueError` (`none`).  (Python further
strips surrounding whitespace and allows single underscores between
digits; no identifier handled at this boundary uses those forms.) -/
def pyIntOfString (s : String) : Option Int :=
  match s.data with
  | '-' :: rest => (parseDigits rest).map (fun n => -(n : Int))
  | '+' :: rest => (parseDigits rest).map (fun n => (n : Int))
  | cs => (parseDigits cs).map (fun n => (n : Int))

/-- The identifier boundary of `api_nutrition_data` (`web_server.py`
lines 215–220): the reserved demo alias `'user_123'` maps to the fixed
numeric id 123456789; every other string goes through `int(user_id)`,
raising `ValueError` (`Except.error ()`) when non-numeric. -/
def web_parse_user_id (s : String) : Except Unit Int :=
  if s = "user_123" then .ok 123456789
  else
    match pyIntOfString s with
    | some n => .ok n
    | none => .error ()

/-- The identifier boundary of `NutritionDataHandler.get_user_nutrition_data`
(`mini_app_server.py` line 89) and of `get_historical_nutrition_data`
(line 150): a bare `int(user_id)` with no alias handling. -/
def miniapp_parse_user_id (s : String) : Except Unit Int :=
  match pyIntOfString s with
  | some n => .ok n
  | none => .error ()

/-! ## Helper lemmas -/

theorem histDayFor_date (summaries : List DaySummary) (d : Int) :
    (histDayFor summaries d).date = d := by
  cases h : summaryLookup summaries d <;> simp [histDayFor, h]

theorem historical_data_shape {profile : Option UserRow}
    {recent : Except Unit (List DaySummary)} {today : Int} {days : ℕ}
    {r : HistResult}
    (h : get_historical_nutrition_data profile recent today days = .ok r) :
    ∃ summaries, recent = .ok summaries ∧
      r.historical_data = (List.range days).map
        (fun (i : ℕ) => histDayFor summaries (today - ((days : Int) - 1 - (i : Int)))) := by
  rcases profile with _ | p
  · simp [get_historical_nutrition_data] at h
  rcases p with ⟨tc, tp, tf, tcb⟩
  rcases recent with e | summaries <;>
    rcases tc with _ | tc <;> rcases tp with _ | tp <;>
    rcases tf with _ | tf <;> rcases tcb with _ | tcb <;>
    simp only [get_historical_nutrition_data] at h <;>
    first
    | exact Except.noConfusion h
    | (injection h with h
       subst h
       exact ⟨summaries, rfl, rfl⟩)

/-! ## Claim theorems -/

/-- C1: the spec says the progress ratio is `min(1.0, consumed / target)`
with a zero target guarded to ratio 0.  The code computes the unguarded
`min(1.0, consumed / target)`: with a present-but-zero calorie target both
cited sites — `update_user_nutrition_data` (`mini_app_server.py` line 59)
and the progress block of `api_nutrition_data` (`web_server.py` line 263)
— raise `ZeroDivisionError` (modelled as `Except.error ()`) instead of
resolving the ratio to 0. -/
theorem progress_zero_target_faults :
    update_user_nutrition_data
      [("calories", 0), ("protein_g", 150), ("fats_g", 65), ("carbs_g", 250)]
      [("calories", 100), ("protein_g", 0), ("fats_g", 0), ("carbs_g", 0)] 0
      = .error ()
  ∧ webProgressBlock ⟨some 0, some 200, some 80, some 300⟩ ⟨100, 0, 0, 0⟩
      = .error () :=
  ⟨rfl, rfl⟩

/-- C2: whenever `get_historical_nutrition_data` succeeds for a window of
`days ≥ 1` days, the series has exactly `days` records, the record at
index `i` carries the UTC calendar date `today − (days − 1) + i`, the
dates are strictly increasing (hence one per day, no duplicates, no
gaps), the first is `today − (days − 1)` and the last is today. -/
theorem history_window_exact
    (profile : Option UserRow) (recent : Except Unit (List DaySummary))
    (today : Int) (days : ℕ) (r : HistResult) (hd : 1 ≤ days)
    (h : get_historical_nutrition_data profile recent today days = .ok r) :
    r.historical_data.length = days
  ∧ (∀ i, i < days →
      (r.historical_data.map HistDay.date)[i]?
        = some (today - ((days : Int) - 1) + (i : Int)))
  ∧ (r.historical_data.map HistDay.date).Pairwise (· < ·)
  ∧ (r.historical_data.map HistDay.date)[0]?
      = some (today - ((days : Int) - 1))
  ∧ (r.historical_data.map HistDay.date)[days - 1]? = some today := by
  obtain ⟨summaries, -, hdata⟩ := historical_data_shape h
  rw [hdata]
  have hdates : (((List.range days).map
        (fun (i : ℕ) => histDayFor summaries
          (today - ((days : Int) - 1 - (i : Int))))).map HistDay.date)
      = (List.range days).map
        (fun (i : ℕ) => today - ((days : Int) - 1 - (i : Int))) := by
    simp [List.map_map, Function.comp_def, histDayFor_date]
  rw [hdates]
  refine ⟨by simp, ?_, ?_, ?_, ?_⟩
  · intro i hi
    rw [List.getElem?_map, List.getElem?_range hi]
    simp only [Option.map_some']
    congr 1
    omega
  · rw [List.pairwise_map]
    exact (List.pairwise_lt_range days).imp (fun hij => by omega)
  · rw [List.getElem?_map, List.getElem?_range (by omega)]
    simp only [Option.map_some']
    congr 1
    omega
  · rw [List.getElem?_map, List.getElem?_range (by omega)]
    simp only [Option.map_some']
    congr 1
    omega

/-- Witness for C2 at the default profile row, no summaries,
`today` = 100, `days` = 3. -/
theorem history_window_exact_witness :
    (1 ≤ 3
    ∧ get_historical_nutrition_data (some defaultTargetsRow)
        (.ok []) 100 3
        = .ok ⟨⟨2000, 150, 65, 250⟩,
            [⟨98, 0, 0, 0, 0⟩, ⟨99, 0, 0, 0, 0⟩, ⟨100, 0, 0, 0, 0⟩]⟩)
  ∧ (([⟨98, 0, 0, 0, 0⟩, ⟨99, 0, 0, 0, 0⟩, ⟨100, 0, 0, 0, 0⟩] :
        List HistDay).length = 3
    ∧ (∀ i : ℕ, i < 3 →
        (([⟨98, 0, 0, 0, 0⟩, ⟨99, 0, 0, 0, 0⟩, ⟨100, 0, 0, 0, 0⟩] :
            List HistDay).map HistDay.date)[i]?
          = some (100 - (((3 : ℕ) : Int) - 1) + (i : Int)))
    ∧ (([⟨98, 0, 0, 0, 0⟩, ⟨99, 0, 0, 0, 0⟩, ⟨100, 0, 0, 0, 0⟩] :
          List HistDay).map HistDay.date).Pairwise (· < ·)
    ∧ (([⟨98, 0, 0, 0, 0⟩, ⟨99, 0, 0, 0, 0⟩, ⟨100, 0, 0, 0, 0⟩] :
          List HistDay).map HistDay.date)[0]?
        = some (100 - (((3 : ℕ) : Int) - 1))
    ∧ (([⟨98, 0, 0, 0, 0⟩, ⟨99, 0, 0, 0, 0⟩, ⟨100, 0, 0, 0, 0⟩] :
          List HistDay).map HistDay.date)[3 - 1]? = some 100) :=
  ⟨⟨by decide, rfl⟩,
    history_window_exact (some defaultTargetsRow) (.ok []) 100 3
      ⟨⟨2000, 150, 65, 250⟩,
        [⟨98, 0, 0, 0, 0⟩, ⟨99, 0, 0, 0, 0⟩, ⟨100, 0, 0, 0, 0⟩]⟩
      (by decide) rfl⟩

/-- C3: `get_nutrition_summary_for_date` first consults the
pre-aggregated daily summary: when that query (absent store errors)
returns a row, the result is the row's four totals with NULL read as 0,
and the raw logs are not consulted; only when it returns no row does the
function sum each of the four fields over the raw log entries whose
`logged_at` lies in `[date, date + 1)`, NULL fields read as 0. -/
theorem consumption_two_tier (db : Db) (user date : Int)
    (h1 : db.summaryQueryFails = false) (h2 : db.logsQueryFails = false) :
    (∀ r rest,
        db.daily_nutrition_summary.filter
            (fun x => x.user_telegram_id == user && x.date == date) = r :: rest →
        get_nutrition_summary_for_date db user date
          = ⟨orZero r.total_calories, orZero r.total_protein_g,
             orZero r.total_carbs_g, orZero r.total_fat_g⟩)
  ∧ (db.daily_nutrition_summary.filter
        (fun x => x.user_telegram_id == user && x.date == date) = [] →
      get_nutrition_summary_for_date db user date
        = ⟨((db.nutrition_logs.filter (fun l => l.user_telegram_id == user
              && decide ((date : ℚ) ≤ l.logged_at)
              && decide (l.logged_at < (date : ℚ) + 1))).map
              (fun l => orZero l.total_calories)).sum,
           ((db.nutrition_logs.filter (fun l => l.user_telegram_id == user
              && decide ((date : ℚ) ≤ l.logged_at)
              && decide (l.logged_at < (date : ℚ) + 1))).map
              (fun l => orZero l.protein_g)).sum,
           ((db.nutrition_logs.filter (fun l => l.user_telegram_id == user
              && decide ((date : ℚ) ≤ l.logged_at)
              && decide (l.logged_at < (date : ℚ) + 1))).map
              (fun l => orZero l.carbs_g)).sum,
           ((db.nutrition_logs.filter (fun l => l.user_telegram_id == user
              && decide ((date : ℚ) ≤ l.logged_at)
              && decide (l.logged_at < (date : ℚ) + 1))).map
              (fun l => orZero l.fat_g)).sum⟩) := by
  constructor
  · intro r rest hf
    simp [get_nutrition_summary_for_date, querySummary, h1, hf]
  · intro hf
    simp [get_nutrition_summary_for_date, querySummary, queryLogsRange,
      h1, h2, hf]

/-- Witness for C3: a store holding one daily summary row for
user 7 on date 100 (protein NULL), no raw logs, no errors. -/
theorem consumption_two_tier_witness :
    (Db.mk [SummaryRow.mk 7 100 (some 500) none (some 30) (some 10) (some 2)]
        [] false false).summaryQueryFails = false
  ∧ (Db.mk [SummaryRow.mk 7 100 (some 500) none (some 30) (some 10) (some 2)]
        [] false false).logsQueryFails = false
  ∧ (Db.mk [SummaryRow.mk 7 100 (some 500) none (some 30) (some 10) (some 2)]
        [] false false).daily_nutrition_summary.filter
        (fun x => x.user_telegram_id == 7 && x.date == 100)
      = [SummaryRow.mk 7 100 (some 500) none (some 30) (some 10) (some 2)]
  ∧ get_nutrition_summary_for_date
        (Db.mk [SummaryRow.mk 7 100 (some 500) none (some 30) (some 10) (some 2)]
          [] false false) 7 100
      = ⟨orZero (some 500), orZero none, orZero (some 30), orZero (some 10)⟩ :=
  ⟨rfl, rfl, by decide,
    (consumption_two_tier
        (Db.mk [SummaryRow.mk 7 100 (some 500) none (some 30) (some 10) (some 2)]
          [] false false) 7 100 rfl rfl).1
      (SummaryRow.mk 7 100 (some 500) none (some 30) (some 10) (some 2)) []
      (by decide)⟩

/-- C4: `get_nutrition_summary_for_date` wraps both lookup paths in
`try/except` and is a total function into `Consumed` (it cannot raise);
when an error occurs on whichever path is executed — the summary query
fails, or the summary is empty and the raw-log query fails — it returns
the all-zero consumption record. -/
theorem consumption_error_zero (db : Db) (user date : Int) :
    (db.summaryQueryFails = true →
      get_nutrition_summary_for_date db user date = ⟨0, 0, 0, 0⟩)
  ∧ (db.summaryQueryFails = false →
      db.daily_nutrition_summary.filter
          (fun x => x.user_telegram_id == user && x.date == date) = [] →
      db.logsQueryFails = true →
      get_nutrition_summary_for_date db user date = ⟨0, 0, 0, 0⟩) := by
  constructor
  · intro hf
    simp [get_nutrition_summary_for_date, querySummary, hf]
  · intro h1 hf h2
    simp [get_nutrition_summary_for_date, querySummary, queryLogsRange,
      h1, hf, h2]

/-- Witness for C4: a store whose summary query fails. -/
theorem consumption_error_zero_witness :
    (Db.mk [] [] true false).summaryQueryFails = true
  ∧ get_nutrition_summary_for_date (Db.mk [] [] true false) 5 0
      = ⟨0, 0, 0, 0⟩ :=
  ⟨rfl, (consumption_error_zero (Db.mk [] [] true false) 5 0).1 rfl⟩

/-- C5: when `get_historical_nutrition_data` raises (any store failure:
profile fetch error/missing row, NULL targets, or a failed summary batch
fetch), the `/api/historical-data` handler answers with the fixed
fallback targets {calories 2500, protein 200, carbs 300, fats 80} and a
`days`-length zero-filled series over the same UTC date window, rather
than an error. -/
theorem historical_fallback (profile : Option UserRow)
    (recent : Except Unit (List DaySummary)) (today : Int) (days : ℕ)
    (h : get_historical_nutrition_data profile recent today days
      = .error ()) :
    (handle_api_historical_data profile recent today days).daily_targets
      = ⟨2500, 200, 80, 300⟩
  ∧ (handle_api_historical_data profile recent today days).last_7_days.length
      = days
  ∧ (∀ i : ℕ, i < days →
      (handle_api_historical_data profile recent today days).last_7_days[i]?
        = some ⟨today - ((days : Int) - 1) + (i : Int), 0, 0, 0, 0, 0⟩) := by
  have hh : handle_api_historical_data profile recent today days
      = { days := days
          daily_targets := ⟨2500, 200, 80, 300⟩
          last_7_days := (List.range days).map (fun (i : ℕ) =>
            ⟨today - ((days : Int) - 1 - (i : Int)), 0, 0, 0, 0, 0⟩) } := by
    unfold handle_api_historical_data
    rw [h]
  rw [hh]
  refine ⟨rfl, by simp, ?_⟩
  intro i hi
  rw [List.getElem?_map, List.getElem?_range hi]
  simp only [Option.map_some']
  have harith : today - ((days : Int) - 1 - (i : Int))
      = today - ((days : Int) - 1) + (i : Int) := by omega
  rw [harith]

/-- Witness for C5: a missing profile row makes the series builder
raise; the handler for `days` = 2, `today` = 50 then serves the
fallback. -/
theorem historical_fallback_witness :
    (get_historical_nutrition_data none (.ok []) 50 2 = .error ())
  ∧ (handle_api_historical_data none (.ok []) 50 2).daily_targets
      = ⟨2500, 200, 80, 300⟩
  ∧ (handle_api_historical_data none (.ok []) 50 2).last_7_days.length = 2
  ∧ (∀ i : ℕ, i < 2 →
      (handle_api_historical_data none (.ok []) 50 2).last_7_days[i]?
        = some ⟨50 - (((2 : ℕ) : Int) - 1) + (i : Int), 0, 0, 0, 0, 0⟩) :=
  ⟨rfl,
    (historical_fallback none (.ok []) 50 2 rfl).1,
    (historical_fallback none (.ok []) 50 2 rfl).2.1,
    (historical_fallback none (.ok []) 50 2 rfl).2.2⟩

/-- C6: `get_user_nutrition_targets` performs exactly one store lookup
(the second component, the lookup count, is 1 on every path) and returns
the hard-coded default target row
{calories 2000, protein 150, fat 65, carbs 250} whenever the lookup
raises or matches no row, instead of propagating an error. -/
theorem targets_default_on_miss (t : UsersTable) (uid : Int) :
    (get_user_nutrition_targets t uid).2 = 1
  ∧ (t.fails = true →
      (get_user_nutrition_targets t uid).1 = defaultTargetsRow)
  ∧ (t.rows.filter (fun r => r.1 == uid) = [] →
      (get_user_nutrition_targets t uid).1 = defaultTargetsRow)
  ∧ defaultTargetsRow = ⟨some 2000, some 150, some 65, some 250⟩ := by
  refine ⟨?_, ?_, ?_, rfl⟩
  · rcases hq : queryUsers t uid with e | rows
    · simp [get_user_nutrition_targets, hq]
    · rcases rows with _ | ⟨r, rest⟩ <;> simp [get_user_nutrition_targets, hq]
  · intro hf
    simp [get_user_nutrition_targets, queryUsers, hf]
  · intro hf
    cases hfail : t.fails
    · simp [get_user_nutrition_targets, queryUsers, hfail, hf]
    · simp [get_user_nutrition_targets, queryUsers, hfail]

/-- Witness for C6: a failing users-table lookup for user 9. -/
theorem targets_default_on_miss_witness :
    (UsersTable.mk [] true).fails = true
  ∧ (get_user_nutrition_targets (UsersTable.mk [] true) 9).2 = 1
  ∧ (get_user_nutrition_targets (UsersTable.mk [] true) 9).1
      = defaultTargetsRow :=
  ⟨rfl, (targets_default_on_miss (UsersTable.mk [] true) 9).1,
    (targets_default_on_miss (UsersTable.mk [] true) 9).2.1 rfl⟩

/-- C7: with non-NULL stored targets, the remaining view of
`SupabaseMiniApp.get_user_nutrition_data` carries per macro
`value = max(0, target − consumed)` with `total = target`, and the value
is never negative even when consumption exceeds the target; likewise,
whenever `NutritionDataHandler.get_user_nutrition_data` succeeds, each
returned `value` equals `max(0, total − consumed)` and is non-negative. -/
theorem remaining_clamped (t : UsersTable) (db : Db) (uid today : Int)
    (tc tp tf tcb : ℚ)
    (h1 : (get_user_nutrition_targets t uid).1
      = ⟨some tc, some tp, some tf, some tcb⟩) :
    (get_user_nutrition_data t db uid today
      = { calories := ⟨max 0 (tc -
            (get_nutrition_summary_for_date db uid today).total_calories), tc⟩
          protein := ⟨max 0 (tp -
            (get_nutrition_summary_for_date db uid today).total_protein_g), tp⟩
          carbs := ⟨max 0 (tcb -
            (get_nutrition_summary_for_date db uid today).total_carbs_g), tcb⟩
          fats := ⟨max 0 (tf -
            (get_nutrition_summary_for_date db uid today).total_fat_g), tf⟩ })
  ∧ 0 ≤ (get_user_nutrition_data t db uid today).calories.value
  ∧ 0 ≤ (get_user_nutrition_data t db uid today).protein.value
  ∧ 0 ≤ (get_user_nutrition_data t db uid today).carbs.value
  ∧ 0 ≤ (get_user_nutrition_data t db uid today).fats.value
  ∧ (∀ v, handler_get_user_nutrition_data t db uid today = .ok v →
      v.calories.value = max 0 (v.calories.total -
        (get_nutrition_summary_for_date db uid today).total_calories)
      ∧ v.protein.value = max 0 (v.protein.total -
        (get_nutrition_summary_for_date db uid today).total_protein_g)
      ∧ v.carbs.value = max 0 (v.carbs.total -
        (get_nutrition_summary_for_date db uid today).total_carbs_g)
      ∧ v.fats.value = max 0 (v.fats.total -
        (get_nutrition_summary_for_date db uid today).total_fat_g)
      ∧ 0 ≤ v.calories.value ∧ 0 ≤ v.protein.value
      ∧ 0 ≤ v.carbs.value ∧ 0 ≤ v.fats.value) := by
  have hmain : get_user_nutrition_data t db uid today
      = { calories := ⟨max 0 (tc -
            (get_nutrition_summary_for_date db uid today).total_calories), tc⟩
          protein := ⟨max 0 (tp -
            (get_nutrition_summary_for_date db uid today).total_protein_g), tp⟩
          carbs := ⟨max 0 (tcb -
            (get_nutrition_summary_for_date db uid today).total_carbs_g), tcb⟩
          fats := ⟨max 0 (tf -
            (get_nutrition_summary_for_date db uid today).total_fat_g), tf⟩ } := by
    simp only [get_user_nutrition_data, h1]
  refine ⟨hmain, ?_, ?_, ?_, ?_, ?_⟩
  · rw [hmain]; exact le_max_left _ _
  · rw [hmain]; exact le_max_left _ _
  · rw [hmain]; exact le_max_left _ _
  · rw [hmain]; exact le_max_left _ _
  · intro v hv
    unfold handler_get_user_nutrition_data at hv
    split at hv
    · exact Except.noConfusion hv
    · split at hv <;> try exact Except.noConfusion hv
      split at hv
      · injection hv with hv
        subst hv
        exact ⟨rfl, rfl, rfl, rfl, le_max_left _ _, le_max_left _ _,
          le_max_left _ _, le_max_left _ _⟩
      · exact Except.noConfusion hv

/-- Witness for C7: user 5 with stored targets 2000/150/65/250 and an
empty error-free consumption store. -/
theorem remaining_clamped_witness :
    ((get_user_nutrition_targets
        (UsersTable.mk [(5, UserRow.mk (some 2000) (some 150) (some 65)
          (some 250))] false) 5).1
      = ⟨some 2000, some 150, some 65, some 250⟩)
  ∧ 0 ≤ (get_user_nutrition_data
      (UsersTable.mk [(5, UserRow.mk (some 2000) (some 150) (some 65)
        (some 250))] false)
      (Db.mk [] [] false false) 5 0).calories.value :=
  ⟨rfl,
    (remaining_clamped
      (UsersTable.mk [(5, UserRow.mk (some 2000) (some 150) (some 65)
        (some 250))] false)
      (Db.mk [] [] false false) 5 0 2000 150 65 250 rfl).2.1⟩

/-- C8: in every successful historical series, a day record whose date is
absent from the summary lookup has all four consumption values equal
to 0 — the builder never substitutes sample or placeholder nonzero
data for a missing day. -/
theorem missing_day_zero_filled (profile : Option UserRow)
    (summaries : List DaySummary) (today : Int) (days : ℕ) (r : HistResult)
    (h : get_historical_nutrition_data profile (.ok summaries) today days
      = .ok r) :
    ∀ (i : ℕ) (d : Int) (cal prot carb fat : ℚ),
      r.historical_data[i]? = some ⟨d, cal, prot, carb, fat⟩ →
      summaryLookup summaries d = none →
      cal = 0 ∧ prot = 0 ∧ carb = 0 ∧ fat = 0 := by
  obtain ⟨summaries', hrec, hdata⟩ := historical_data_shape h
  injection hrec with hrec
  subst hrec
  intro i d cal prot carb fat hget hnone
  rw [hdata, List.getElem?_map] at hget
  rcases hr : (List.range days)[i]? with _ | j
  · rw [hr] at hget
    simp at hget
  · rw [hr] at hget
    simp only [Option.map_some'] at hget
    injection hget with hget
    rcases hl : summaryLookup summaries
        (today - ((days : Int) - 1 - (j : Int))) with _ | sr
    · unfold histDayFor at hget
      rw [hl] at hget
      injection hget with hd hcal hprot hcarb hfat
      exact ⟨hcal.symm, hprot.symm, hcarb.symm, hfat.symm⟩
    · unfold histDayFor at hget
      rw [hl] at hget
      injection hget with hd hcal hprot hcarb hfat
      rw [← hd] at hnone
      rw [hl] at hnone
      exact Option.noConfusion hnone

/-- Witness for C8 at the default profile row, no summaries,
`today` = 100, `days` = 3, index 0. -/
theorem missing_day_zero_filled_witness :
    (get_historical_nutrition_data (some defaultTargetsRow) (.ok []) 100 3
      = .ok ⟨⟨2000, 150, 65, 250⟩,
          [⟨98, 0, 0, 0, 0⟩, ⟨99, 0, 0, 0, 0⟩, ⟨100, 0, 0, 0, 0⟩]⟩)
  ∧ ((⟨⟨2000, 150, 65, 250⟩,
        [⟨98, 0, 0, 0, 0⟩, ⟨99, 0, 0, 0, 0⟩, ⟨100, 0, 0, 0, 0⟩]⟩ :
        HistResult).historical_data[0]? = some ⟨98, 0, 0, 0, 0⟩)
  ∧ summaryLookup [] 98 = none
  ∧ ((0 : ℚ) = 0 ∧ (0 : ℚ) = 0 ∧ (0 : ℚ) = 0 ∧ (0 : ℚ) = 0) :=
  ⟨rfl, rfl, rfl,
    missing_day_zero_filled (some defaultTargetsRow) [] 100 3
      ⟨⟨2000, 150, 65, 250⟩,
        [⟨98, 0, 0, 0, 0⟩, ⟨99, 0, 0, 0, 0⟩, ⟨100, 0, 0, 0, 0⟩]⟩
      rfl 0 98 0 0 0 0 rfl rfl⟩

/-- C9: at the store boundary a string user identifier is parsed into
numeric form and the request fails (`ValueError`) when it is
non-numeric; exactly one reserved demo alias — `'user_123'`, handled
only by the `web_server.py` boundary — is instead mapped to the fixed
numeric id 123456789 (any other non-numeric string errors at both
boundaries, and the mini-app boundary has no alias at all). -/
theorem user_id_boundary :
    web_parse_user_id "user_123" = .ok 123456789
  ∧ (∀ s, s ≠ "user_123" → pyIntOfString s = none →
      web_parse_user_id s = .error () ∧ miniapp_parse_user_id s = .error ())
  ∧ (∀ s n, pyIntOfString s = some n →
      miniapp_parse_user_id s = .ok n
      ∧ (s ≠ "user_123" → web_parse_user_id s = .ok n)) := by
  refine ⟨rfl, ?_, ?_⟩
  · intro s hs hnone
    constructor
    · simp [web_parse_user_id, hs, hnone]
    · simp [miniapp_parse_user_id, hnone]
  · intro s n hsome
    constructor
    · simp [miniapp_parse_user_id, hsome]
    · intro hs
      simp [web_parse_user_id, hs, hsome]

/-- Witness for C9: the non-numeric id `"abc"` fails at both boundaries
and the numeric id `"42"` parses. -/
theorem user_id_boundary_witness :
    ("abc" ≠ "user_123" ∧ pyIntOfString "abc" = none
      ∧ web_parse_user_id "abc" = .error ()
      ∧ miniapp_parse_user_id "abc" = .error ())
  ∧ (pyIntOfString "42" = some 42 ∧ miniapp_parse_user_id "42" = .ok 42) :=
  ⟨⟨by decide, by decide,
    (user_id_boundary.2.1 "abc" (by decide) (by decide)).1,
    (user_id_boundary.2.1 "abc" (by decide) (by decide)).2⟩,
   ⟨by decide, (user_id_boundary.2.2 "42" 42 (by decide)).1⟩⟩

/-- C10: in the `/api/nutrition-data` JSON response (with non-NULL
stored targets), each reported `consumed_today` value equals
`target − remaining` where `remaining = max(0, target − actual)`;
consequently, whenever actual consumption exceeds the target for a
macro, the reported consumed value equals the target — clamped, strictly
under-reporting the actual consumption. -/
theorem api_consumed_clamped (t : UsersTable) (db : Db) (uid today : Int)
    (tc tp tf tcb : ℚ)
    (h1 : (get_user_nutrition_targets t uid).1
      = ⟨some tc, some tp, some tf, some tcb⟩) :
    ((api_nutrition_response t db uid today).consumed_today.calories
        = tc - max 0 (tc -
            (get_nutrition_summary_for_date db uid today).total_calories)
      ∧ (api_nutrition_response t db uid today).consumed_today.protein_g
        = tp - max 0 (tp -
            (get_nutrition_summary_for_date db uid today).total_protein_g)
      ∧ (api_nutrition_response t db uid today).consumed_today.carbs_g
        = tcb - max 0 (tcb -
            (get_nutrition_summary_for_date db uid today).total_carbs_g)
      ∧ (api_nutrition_response t db uid today).consumed_today.fats_g
        = tf - max 0 (tf -
            (get_nutrition_summary_for_date db uid today).total_fat_g))
  ∧ ((get_nutrition_summary_for_date db uid today).total_calories > tc →
      (api_nutrition_response t db uid today).consumed_today.calories = tc
      ∧ (api_nutrition_response t db uid today).consumed_today.calories
          < (get_nutrition_summary_for_date db uid today).total_calories)
  ∧ ((get_nutrition_summary_for_date db uid today).total_protein_g > tp →
      (api_nutrition_response t db uid today).consumed_today.protein_g = tp
      ∧ (api_nutrition_response t db uid today).consumed_today.protein_g
          < (get_nutrition_summary_for_date db uid today).total_protein_g)
  ∧ ((get_nutrition_summary_for_date db uid today).total_carbs_g > tcb →
      (api_nutrition_response t db uid today).consumed_today.carbs_g = tcb
      ∧ (api_nutrition_response t db uid today).consumed_today.carbs_g
          < (get_nutrition_summary_for_date db uid today).total_carbs_g)
  ∧ ((get_nutrition_summary_for_date db uid today).total_fat_g > tf →
      (api_nutrition_response t db uid today).consumed_today.fats_g = tf
      ∧ (api_nutrition_response t db uid today).consumed_today.fats_g
          < (get_nutrition_summary_for_date db uid today).total_fat_g) := by
  have hcal : (api_nutrition_response t db uid today).consumed_today.calories
      = tc - max 0 (tc -
          (get_nutrition_summary_for_date db uid today).total_calories) := by
    simp only [api_nutrition_response, handle_api_nutrition_data,
      get_real_user_nutrition_data, get_user_nutrition_data, h1]
  have hprot : (api_nutrition_response t db uid today).consumed_today.protein_g
      = tp - max 0 (tp -
          (get_nutrition_summary_for_date db uid today).total_protein_g) := by
    simp only [api_nutrition_response, handle_api_nutrition_data,
      get_real_user_nutrition_data, get_user_nutrition_data, h1]
  have hcarb : (api_nutrition_response t db uid today).consumed_today.carbs_g
      = tcb - max 0 (tcb -
          (get_nutrition_summary_for_date db uid today).total_carbs_g) := by
    simp only [api_nutrition_response, handle_api_nutrition_data,
      get_real_user_nutrition_data, get_user_nutrition_data, h1]
  have hfat : (api_nutrition_response t db uid today).consumed_today.fats_g
      = tf - max 0 (tf -
          (get_nutrition_summary_for_date db uid today).total_fat_g) := by
    simp only [api_nutrition_response, handle_api_nutrition_data,
      get_real_user_nutrition_data, get_user_nutrition_data, h1]
  refine ⟨⟨hcal, hprot, hcarb, hfat⟩, ?_, ?_, ?_, ?_⟩
  · intro hgt
    rw [hcal, max_eq_left (by linarith)]
    constructor
    · ring
    · linarith
  · intro hgt
    rw [hprot, max_eq_left (by linarith)]
    constructor
    · ring
    · linarith
  · intro hgt
    rw [hcarb, max_eq_left (by linarith)]
    constructor
    · ring
    · linarith
  · intro hgt
    rw [hfat, max_eq_left (by linarith)]
    constructor
    · ring
    · linarith

/-- Witness for C10: user 5 with calorie target 2000 and a summary row
recording 3000 consumed calories — the API reports 2000 consumed. -/
theorem api_consumed_clamped_witness :
    ((get_user_nutrition_targets
        (UsersTable.mk [(5, UserRow.mk (some 2000) (some 150) (some 65)
          (some 250))] false) 5).1
      = ⟨some 2000, some 150, some 65, some 250⟩)
  ∧ (get_nutrition_summary_for_date
        (Db.mk [SummaryRow.mk 5 0 (some 3000) (some 0) (some 0) (some 0)
          (some 1)] [] false false) 5 0).total_calories > 2000
  ∧ (api_nutrition_response
        (UsersTable.mk [(5, UserRow.mk (some 2000) (some 150) (some 65)
          (some 250))] false)
        (Db.mk [SummaryRow.mk 5 0 (some 3000) (some 0) (some 0) (some 0)
          (some 1)] [] false false) 5 0).consumed_today.calories = 2000
  ∧ (api_nutrition_response
        (UsersTable.mk [(5, UserRow.mk (some 2000) (some 150) (some 65)
          (some 250))] false)
        (Db.mk [SummaryRow.mk 5 0 (some 3000) (some 0) (some 0) (some 0)
          (some 1)] [] false false) 5 0).consumed_today.calories
      < (get_nutrition_summary_for_date
          (Db.mk [SummaryRow.mk 5 0 (some 3000) (some 0) (some 0) (some 0)
            (some 1)] [] false false) 5 0).total_calories :=
  ⟨rfl, by decide,
    ((api_consumed_clamped
        (UsersTable.mk [(5, UserRow.mk (some 2000) (some 150) (some 65)
          (some 250))] false)
        (Db.mk [SummaryRow.mk 5 0 (some 3000) (some 0) (some 0) (some 0)
          (some 1)] [] false false) 5 0 2000 150 65 250 rfl).2.1
      (by decide)).1,
    ((api_consumed_clamped
        (UsersTable.mk [(5, UserRow.mk (some 2000) (some 150) (some 65)
          (some 250))] false)
        (Db.mk [SummaryRow.mk 5 0 (some 3000) (some 0) (some 0) (some 0)
          (some 1)] [] false false) 5 0 2000 150 65 250 rfl).2.1
      (by decide)).2⟩

end MiniApp
